import Mathlib

/-!
Verification of the hub training-session synchronizer
(`src/ultralytics/hub/session.py`, class `HubTrainingSession`).

Times and scalar metric values are embedded as `Rat` (the source works with
Python float seconds and scalar metric values; every operation the session
performs on them is comparison, subtraction or equality, so exact rationals
are a faithful shallow embedding). Python dicts whose key set is dynamic
(the metrics queue) are embedded as association lists with pairwise-distinct
keys, Python dicts with a fixed literal key set (`rate_limits`, `t`) as
records. File contents are `List Nat` byte lists; the filesystem is a
function `String → Option (List Nat)` (`Path(w).is_file()` succeeds iff the
function returns `some`, in which case `open(w,"rb").read()` yields those
bytes).
-/

namespace HubSession

/-- Modelled from the spec: `HUB_API_ROOT` is defined in
`ultralytics/hub/config.py`, which is not under `src/`; the spec calls it
`{apiRoot}`, the base URL of the remote coordination service. No claim
depends on its concrete value, only on how the session builds URLs from it. -/
def HUB_API_ROOT : String := "https://api.ultralytics.com"

/-- Modelled from the spec: `AGENT_NAME` (session.py line 12) depends on
`__version__` and `is_colab()` from modules not under `src/`; it is a fixed
string for the life of the process. No claim depends on its value. -/
def AGENT_NAME : String := "python-local"

/-- Byte contents of a weights file. -/
abbrev Bytes := List Nat

/-- HTTP headers, e.g. the auth header map. -/
abbrev Headers := List (String × String)

/-- The metrics queue: Python dict from metric name to scalar value
(session.py line 24). -/
abbrev MQueue := List (String × Rat)

/-- A Python dict has pairwise-distinct keys; association lists embedding a
dict carry this invariant. -/
def NodupKeys (q : MQueue) : Prop := (q.map Prod.fst).Nodup

instance (q : MQueue) : Decidable (NodupKeys q) := by
  unfold NodupKeys; infer_instance

/-- `rate_limits` dict literal of session.py line 22: fixed key set
{metrics, ckpt, heartbeat}, embedded as a record. -/
structure RateLimits where
  metrics : Rat
  ckpt : Rat
  heartbeat : Rat
deriving DecidableEq, Repr

/-- `t` dict of session.py line 23 (rate limit timers): starts empty, each
channel's timer is set when that channel first fires, so each entry is an
`Option`. -/
structure Timers where
  metrics : Option Rat
  ckpt : Option Rat
  heartbeat : Option Rat
deriving DecidableEq, Repr

/-- The session object's fields (session.py lines 18-25). -/
structure Session where
  agent_id : Option String
  model_id : String
  api_url : String
  auth_header : Headers
  rate_limits : RateLimits
  t : Timers
  metrics_queue : MQueue
  alive : Bool

/-- Field initialization performed by `HubTrainingSession.__init__`
(session.py lines 18-25), before the `self._get_model(model_id)` call on
line 26. The dict literals become record literals; `t = {}` means no timer
is set. -/
def mkSessionFields (model_id : String) (auth_header : Headers) : Session where
  agent_id := none
  model_id := model_id
  api_url := HUB_API_ROOT ++ "/v1/models/" ++ model_id
  auth_header := auth_header
  rate_limits := { metrics := 3, ckpt := 900, heartbeat := 300 }
  t := { metrics := none, ckpt := none, heartbeat := none }
  metrics_queue := []
  alive := true

/-! ### Construction and `_get_model` -/

/-- Errors that `HubTrainingSession` construction can raise. -/
inductive InitError
  /-- Python `TypeError`: a method called with an argument count not matching
  its `def` signature. -/
  | typeError
  /-- `Exception('ERROR: The HUB server is not online. Please try again
  later.')`, session.py line 79. -/
  | serviceUnavailable
  /-- `AssertionError('ERROR: Dataset may still be processing. Please wait a
  minute and try again.')`, session.py line 75. -/
  | datasetNotReady
deriving DecidableEq, Repr

/-- The JSON model record `r.json().get("data", None)`: `id` is
`data["id"]`, `dataField` embeds `data['data']` (`none` when absent or
falsy, the condition the line-75 assert tests). -/
structure ModelRecord where
  id : String
  dataField : Option String
deriving DecidableEq, Repr

/-- Outcome of the synchronous model-fetch HTTP call in `_get_model`:
either the connection-level failure that `requests` raises as
`ConnectionError`, or a response whose parsed `data` field is `none`
(absent/null) or a record. -/
inductive FetchOutcome
  | connectionError
  | response (data : Option ModelRecord)
deriving DecidableEq, Repr

/-- The body of `_get_model` (session.py lines 66-79) as written: maps a
connection error to the "HUB server is not online" exception, a missing
`data` to a silent `None` return, a record whose `data['data']` is falsy to
the "Dataset may still be processing" assertion error, and otherwise
returns the record. (This body is never actually reached: see `init`. It
would additionally fail reading `self.auth` on line 69, an attribute
`__init__` never assigns; this embedding gives the control flow of the body
itself.) -/
def get_model_body (outcome : FetchOutcome) : Except InitError (Option ModelRecord) :=
  match outcome with
  | .connectionError => .error .serviceUnavailable
  | .response none => .ok none
  | .response (some d) =>
      match d.dataField with
      | none => .error .datasetNotReady
      | some _ => .ok (some d)

/-- `HubTrainingSession.__init__` (session.py lines 17-28): after setting
the fields (`mkSessionFields`), line 26 evaluates `self._get_model(model_id)`.
`_get_model` is declared `def _get_model(self)` (line 66), taking no
argument beyond `self`, so in Python this call raises
`TypeError: _get_model() takes 1 positional argument but 2 were given`
before any fetch is attempted (and even with matching arity, line 69 reads
`self.auth`, never assigned by `__init__`, raising `AttributeError`).
Construction therefore always fails, whatever the hub would have answered.
The returned `Bool` records whether `self._heartbeats()` (line 28) was
started; the raise on line 26 means it never is. -/
def init (model_id : String) (auth_header : Headers) (outcome : FetchOutcome) :
    Except InitError Session × Bool :=
  let _fields := mkSessionFields model_id auth_header
  let _wouldBe := get_model_body outcome
  (Except.error .typeError, false)

/-! ### `_upload_metrics` -/

/-- The request that `_upload_metrics` (session.py lines 35-37) passes to
`smart_request`: URL `self.api_url`, JSON payload
`{"metrics": self.metrics_queue.copy(), "type": "metrics"}`, the auth
header, diagnostic code 2. `retry`/`timeout` are not passed (`none` =
transport default). -/
structure MetricsRequest where
  url : String
  metrics : MQueue
  rtype : String
  headers : Headers
  retry : Option Nat
  timeout : Option Nat
  code : Nat
deriving Repr

/-- `_upload_metrics` (session.py lines 35-37) as a state transformer:
builds the payload from a copy of the queue and calls `smart_request`; the
method assigns no attribute, so the session it leaves behind is the session
it was given. -/
def uploadMetricsCall (s : Session) : MetricsRequest × Session :=
  ({ url := s.api_url
     metrics := s.metrics_queue
     rtype := "metrics"
     headers := s.auth_header
     retry := none
     timeout := none
     code := 2 }, s)

/-- `enqueue(name, value)`: Python dict assignment `queue[name] = value` —
same name overwrites, last write wins. Keeps keys pairwise distinct. -/
def enqueue (q : MQueue) (k : String) (v : Rat) : MQueue :=
  (k, v) :: q.filter (fun p => p.1 ≠ k)

/-- Merge a list of trainer enqueues into the queue, in order. -/
def mergeAll (q : MQueue) (adds : List (String × Rat)) : MQueue :=
  adds.foldl (fun acc p => enqueue acc p.1 p.2) q

/-- Modelled from the spec: `clear(uploaded)` of the MetricsQueue contract
(§4.3) — the flush orchestration lives in the trainer callbacks
(`ultralytics/hub/callbacks.py`), which is not under `src/`. It "removes
exactly the keys present in `uploaded` with values unchanged since
snapshot". -/
def clearConfirmed (q uploaded : MQueue) : MQueue :=
  q.filter (fun p => uploaded.lookup p.1 ≠ some p.2)

/-- Modelled from the spec: `maybeUploadMetrics` (§4.5) minus its rate
gate — the snapshot/confirm/clear cycle around one upload attempt. The
snapshot actually sent is the one `_upload_metrics` put in the payload
(embedded from source in `uploadMetricsCall`); `adds` are the trainer's
enqueues between snapshot and confirmation; `success` is the transport
outcome. On success the confirmed keys are cleared, on failure the queue is
left intact. Returns the queue after the cycle. -/
def flushResult (s : Session) (adds : List (String × Rat)) (success : Bool) : MQueue :=
  let uploaded := (uploadMetricsCall s).1.metrics
  let qConfirm := mergeAll s.metrics_queue adds
  if success then clearConfirmed qConfirm uploaded else qConfirm

/-! ### RateLimiter -/

/-- Modelled from the spec: `allow(channel)` of the RateLimiter contract
(§4.1) — the per-channel gate lives in the trainer callbacks, not under
`src/`; the session only stores its state (`rate_limits`, `t`, session.py
lines 22-23). Given the current time, the channel's minimum interval `d`
and its `lastFiredAt`, returns true and the updated `lastFiredAt = now` iff
`lastFiredAt` is unset or `now - lastFiredAt ≥ d`; otherwise false with the
timer unchanged. -/
def allow (now d : Rat) (lastFiredAt : Option Rat) : Bool × Option Rat :=
  match lastFiredAt with
  | none => (true, some now)
  | some t0 => if d ≤ now - t0 then (true, some now) else (false, some t0)

/-! ### `_upload_model` and the checkpoint-upload operation -/

/-- The multipart request that `_upload_model` (session.py lines 39-64)
passes to `smart_request`: URL `f'{self.api_url}/upload'`, form fields
`epoch`, `type` and (`map` for final / `isBest` for epoch), one binary file
part (`best.pt` for final / `last.pt` for epoch) whose content is `none`
when the weights path named no existing file. `retry`/`timeout` are `none`
when the call site does not pass them (transport default). `method` is
`smart_request`'s default POST. -/
structure UploadRequest where
  url : String
  method : String
  epoch : Int
  rtype : String
  map : Option Rat
  isBest : Option Bool
  fileName : String
  file : Option Bytes
  headers : Headers
  retry : Option Nat
  timeout : Option Nat
  code : Nat

/-- `_upload_model(epoch, weights, is_best, map, final)` (session.py lines
39-64): read the weights file fully if it exists (else the file part stays
`None`), then issue the final-upload request (type `"final"`, field `map`,
file part `best.pt`, `retry=10`, `timeout=3600`, code 4) or the epoch
request (type `"epoch"`, field `isBest`, file part `last.pt`, default
retry/timeout, code 3). The method consults no rate-limit state and never
raises on a missing file. -/
def uploadModelRequest (s : Session) (epoch : Int) (weights : String)
    (is_best : Bool) (map : Rat) (final : Bool) (fs : String → Option Bytes) :
    UploadRequest :=
  let file := fs weights
  if final then
    { url := s.api_url ++ "/upload"
      method := "post"
      epoch := epoch
      rtype := "final"
      map := some map
      isBest := none
      fileName := "best.pt"
      file := file
      headers := s.auth_header
      retry := some 10
      timeout := some 3600
      code := 4 }
  else
    { url := s.api_url ++ "/upload"
      method := "post"
      epoch := epoch
      rtype := "epoch"
      map := none
      isBest := some is_best
      fileName := "last.pt"
      file := file
      headers := s.auth_header
      retry := none
      timeout := none
      code := 3 }

/-- Modelled from the spec: `uploadCheckpoint` (§4.5) — the trainer-side
checkpoint callback that decides when `_upload_model` fires is in
`ultralytics/hub/callbacks.py`, not under `src/`. Per the spec, a final
upload always fires, unconditionally; a non-final upload is gated by the
"ckpt" channel's rate limit (whose state lives in the session, session.py
lines 22-23), which records the fire time when it allows. The request
itself is `_upload_model`'s, embedded from source in `uploadModelRequest`.
Returns the request fired (if any) and the session afterwards. -/
def uploadCheckpoint (s : Session) (now : Rat) (epoch : Int) (weights : String)
    (is_best : Bool) (map : Rat) (final : Bool) (fs : String → Option Bytes) :
    Option UploadRequest × Session :=
  if final then
    (some (uploadModelRequest s epoch weights is_best map true fs), s)
  else
    let g := allow now s.rate_limits.ckpt s.t.ckpt
    if g.1 then
      (some (uploadModelRequest s epoch weights is_best map false fs),
       { s with t := { s.t with ckpt := g.2 } })
    else
      (none, s)

/-! ### `_heartbeats` -/

/-- The request one heartbeat tick passes to `smart_request` (session.py
lines 92-99): URL `f'{HUB_API_ROOT}/v1/agent/heartbeat/models/{model_id}'`,
JSON body `{"agent": AGENT_NAME, "agentId": agent_id}`, explicit `retry=0`,
diagnostic code 5, run synchronously in the loop's own thread
(`thread=False`). -/
structure HBRequest where
  url : String
  agent : String
  agentId : Option String
  headers : Headers
  retry : Option Nat
  timeout : Option Nat
  code : Nat
  thread : Bool
deriving DecidableEq, Repr

/-- Build the heartbeat request sent for model `model_id` while the agent
id is `agent_id` (session.py lines 92-99). -/
def heartbeatRequest (model_id : String) (agent_id : Option String)
    (auth_header : Headers) : HBRequest where
  url := HUB_API_ROOT ++ "/v1/agent/heartbeat/models/" ++ model_id
  agent := AGENT_NAME
  agentId := agent_id
  headers := auth_header
  retry := some 0
  timeout := none
  code := 5
  thread := false

/-- Outcome of one heartbeat attempt. Modelled from the spec for the
failure case: `smart_request` (`ultralytics/hub/utils.py`, not under
`src/`) is the RetryingTransport of §4.2, returning a result rather than
raising into the loop; on success the response body gives
`r.json().get('data', {}).get('agentId', None)` — `success a` carries that
(possibly absent) field. -/
inductive HBOutcome
  | success (agentId : Option String)
  | failure
deriving DecidableEq, Repr

/-- Program points of the `_heartbeats` loop (session.py lines 90-101):
`check` is the `while self.alive` test, `send` the `smart_request` call
plus the `self.agent_id = ...` assignment, `sleep_` the
`sleep(self.rate_limits['heartbeat'])`, `stopped` loop exit. -/
inductive HBLoc
  | check
  | send
  | sleep_
  | stopped
deriving DecidableEq, Repr

/-- State of the heartbeat loop thread: the session fields it touches
(`model_id` read, `alive` polled, `agent_id` read and written), the current
program point, and the trace of requests sent so far (most recent first).
`auth_header` is fixed for the session's life and left out of the state;
requests are recorded with empty headers. -/
structure HBState where
  model_id : String
  alive : Bool
  agent_id : Option String
  loc : HBLoc
  reqs : List HBRequest
deriving DecidableEq, Repr

/-- One step of the `_heartbeats` loop. The `oracle` gives the outcome of
the n-th heartbeat attempt. At `check`, `while self.alive` either enters
the body or exits; at `send`, the request carrying the current model id and
agent id is issued and — per session.py line 100 — on success `agent_id` is
overwritten with the response's (possibly absent) `data.agentId`, on
failure it is left as it was (spec §4.4: "on success, update agentId from
the response"); at `sleep_`, the thread finishes its sleep and returns to
the check. `alive` is written only by the main thread (`__del__`), never by
the loop, so it is constant under `hbStep`. -/
def hbStep (oracle : Nat → HBOutcome) (st : HBState) : HBState :=
  match st.loc with
  | .check => if st.alive then { st with loc := .send } else { st with loc := .stopped }
  | .send =>
      let newAgent :=
        match oracle st.reqs.length with
        | .success a => a
        | .failure => st.agent_id
      { st with
          agent_id := newAgent
          loc := .sleep_
          reqs := heartbeatRequest st.model_id st.agent_id [] :: st.reqs }
  | .sleep_ => { st with loc := .check }
  | .stopped => st

/-- Run the loop for `n` steps. -/
def hbRun (oracle : Nat → HBOutcome) (st : HBState) : Nat → HBState
  | 0 => st
  | n + 1 => hbRun oracle (hbStep oracle st) n

/-- The loop state right after `self._heartbeats()` starts (session.py
line 28 as intended): `alive` true, `agent_id` still `None` (line 18), no
request sent yet, about to test the loop condition. -/
def initHB (model_id : String) : HBState where
  model_id := model_id
  alive := true
  agent_id := none
  loc := .check
  reqs := []

/-! ### Helper lemmas: association lists with distinct keys -/

theorem lookup_eq_none_of_not_mem_keys (q : MQueue) (k : String)
    (h : k ∉ q.map Prod.fst) : q.lookup k = none := by
  induction q with
  | nil => rfl
  | cons p rest ih =>
      obtain ⟨a, b⟩ := p
      simp only [List.map_cons, List.mem_cons, not_or] at h
      have hbeq : (k == a) = false := beq_eq_false_iff_ne.mpr h.1
      simpa [List.lookup, hbeq] using ih h.2

theorem keys_filter_subset (q : MQueue) (f : String × Rat → Bool) (k : String)
    (h : k ∈ (q.filter f).map Prod.fst) : k ∈ q.map Prod.fst := by
  simp only [List.mem_map] at h ⊢
  obtain ⟨p, hp, rfl⟩ := h
  exact ⟨p, List.mem_of_mem_filter hp, rfl⟩

theorem nodupKeys_cons (a : String) (b : Rat) (rest : MQueue)
    (h : NodupKeys ((a, b) :: rest)) :
    a ∉ rest.map Prod.fst ∧ NodupKeys rest := by
  simpa [NodupKeys, List.nodup_cons] using h

/-- Looking a key up in a filtered association list with distinct keys:
the key survives iff its (unique) entry passes the filter. -/
theorem lookup_filter (q : MQueue) (f : String × Rat → Bool) (k : String)
    (h : NodupKeys q) :
    (q.filter f).lookup k =
      match q.lookup k with
      | none => none
      | some v => if f (k, v) then some v else none := by
  induction q with
  | nil => rfl
  | cons p rest ih =>
      obtain ⟨a, b⟩ := p
      obtain ⟨ha, hrest⟩ := nodupKeys_cons a b rest h
      by_cases hk : k = a
      · subst hk
        by_cases hf : f (k, b)
        · simp [List.filter_cons, hf, List.lookup]
        · simp only [List.filter_cons, hf, Bool.false_eq_true, if_false,
            List.lookup, beq_self_eq_true, if_pos rfl]
          rw [lookup_eq_none_of_not_mem_keys]
          intro hmem
          exact ha (keys_filter_subset rest f k hmem)
      · have hbeq : (k == a) = false := beq_eq_false_iff_ne.mpr hk
        by_cases hf : f (a, b)
        · simpa [List.filter_cons, hf, List.lookup, hbeq] using ih hrest
        · simpa [List.filter_cons, hf, List.lookup, hbeq] using ih hrest

theorem nodupKeys_filter (q : MQueue) (f : String × Rat → Bool)
    (h : NodupKeys q) : NodupKeys (q.filter f) :=
  List.Sublist.nodup (List.Sublist.map Prod.fst (List.filter_sublist q)) h

theorem nodupKeys_enqueue (q : MQueue) (k : String) (v : Rat)
    (h : NodupKeys q) : NodupKeys (enqueue q k v) := by
  unfold enqueue NodupKeys
  simp only [List.map_cons, List.nodup_cons]
  constructor
  · intro hmem
    simp only [List.mem_map] at hmem
    obtain ⟨p, hp, hpk⟩ := hmem
    have := List.of_mem_filter hp
    simp only [decide_eq_true_eq] at this
    exact this hpk
  · exact nodupKeys_filter q _ h

theorem nodupKeys_mergeAll (q : MQueue) (adds : List (String × Rat))
    (h : NodupKeys q) : NodupKeys (mergeAll q adds) := by
  induction adds generalizing q with
  | nil => exact h
  | cons p rest ih => exact ih _ (nodupKeys_enqueue q p.1 p.2 h)

/-! ### Claim theorems -/

/-- C1: for every metrics upload performed by the session, on success
exactly the keys whose values were in the snapshot sent are removed from
the metrics queue (a key re-enqueued with a newer value between snapshot
and confirmation keeps that newer value), and on failure the queue is left
intact, so no queued metric is ever lost. The snapshot sent is the payload
copy `_upload_metrics` builds (embedded from source); the clear-on-success
orchestration is modelled from the spec (`flushResult`). `adds` are the
trainer's enqueues between snapshot and confirmation; a key of the
confirmation-time queue disappears iff its value is the one that was in the
uploaded snapshot, and otherwise keeps its (newer) value. -/
theorem metrics_flush_clears_exactly_confirmed (s : Session)
    (adds : List (String × Rat)) (k : String) (v : Rat)
    (h : NodupKeys s.metrics_queue) :
    flushResult s adds false = mergeAll s.metrics_queue adds ∧
    ((mergeAll s.metrics_queue adds).lookup k = none →
      (flushResult s adds true).lookup k = none) ∧
    ((mergeAll s.metrics_queue adds).lookup k = some v →
      (flushResult s adds true).lookup k =
        if s.metrics_queue.lookup k = some v then none else some v) := by
  refine ⟨rfl, ?_, ?_⟩
  · intro hnone
    have hnd := nodupKeys_mergeAll s.metrics_queue adds h
    show (clearConfirmed (mergeAll s.metrics_queue adds) s.metrics_queue).lookup k = none
    unfold clearConfirmed
    rw [lookup_filter _ _ _ hnd, hnone]
  · intro hsome
    have hnd := nodupKeys_mergeAll s.metrics_queue adds h
    show (clearConfirmed (mergeAll s.metrics_queue adds) s.metrics_queue).lookup k =
      if s.metrics_queue.lookup k = some v then none else some v
    unfold clearConfirmed
    rw [lookup_filter _ _ _ hnd, hsome]
    by_cases he : s.metrics_queue.lookup k = some v
    · simp [he]
    · simp [he]

/-- Witness for C1: queue holds `loss = 1`; that snapshot is uploaded while
the trainer re-enqueues `loss = 2`. On failure the queue is the merged
queue; on success the key is not cleared (its value changed since the
snapshot) and the newer value 2 survives. -/
theorem metrics_flush_clears_exactly_confirmed_witness :
    NodupKeys ({ mkSessionFields "m" [] with
        metrics_queue := [("loss", (1 : Rat))] } : Session).metrics_queue ∧
    (flushResult { mkSessionFields "m" [] with metrics_queue := [("loss", (1 : Rat))] }
        [("loss", 2)] false =
      mergeAll ({ mkSessionFields "m" [] with
        metrics_queue := [("loss", (1 : Rat))] } : Session).metrics_queue [("loss", 2)] ∧
    ((mergeAll ({ mkSessionFields "m" [] with
        metrics_queue := [("loss", (1 : Rat))] } : Session).metrics_queue
        [("loss", 2)]).lookup "loss" = none →
      (flushResult { mkSessionFields "m" [] with metrics_queue := [("loss", (1 : Rat))] }
        [("loss", 2)] true).lookup "loss" = none) ∧
    ((mergeAll ({ mkSessionFields "m" [] with
        metrics_queue := [("loss", (1 : Rat))] } : Session).metrics_queue
        [("loss", 2)]).lookup "loss" = some 2 →
      (flushResult { mkSessionFields "m" [] with metrics_queue := [("loss", (1 : Rat))] }
        [("loss", 2)] true).lookup "loss" =
        if ({ mkSessionFields "m" [] with
            metrics_queue := [("loss", (1 : Rat))] } : Session).metrics_queue.lookup "loss" =
            some 2 then none else some 2)) :=
  ⟨by decide,
   metrics_flush_clears_exactly_confirmed
     { mkSessionFields "m" [] with metrics_queue := [("loss", (1 : Rat))] }
     [("loss", 2)] "loss" 2 (by decide)⟩

/-- C2: the claim says construction fails with a service-unavailable error
when the hub is unreachable, with a dataset-not-ready error when the model
record has no `data.data`, and that on a successful fetch the heartbeat
loop is started and a usable session is returned. The code cannot do any of
this: line 26 calls `self._get_model(model_id)` while `_get_model` is
declared to take no argument (line 66) — and reads `self.auth`, never
assigned (line 69) — so every construction raises `TypeError` before any
fetch, no heartbeat loop is ever started, and no usable session is ever
returned, whatever the hub would have answered. -/
theorem construction_always_raises_type_error (model_id : String)
    (auth_header : Headers) (outcome : FetchOutcome) :
    init model_id auth_header outcome = (Except.error InitError.typeError, false) :=
  rfl

/-- C3: a final checkpoint upload fires unconditionally — for every session
state, in particular every rate-limit timer state, `uploadCheckpoint` with
`final = true` issues the request and touches no timer — and the request is
`_upload_model`'s final profile: POST to `{api_url}/upload` carrying the
epoch, type `"final"`, the achieved map score, the weights bytes under file
part name `best.pt`, retry budget 10 and timeout 3600 seconds. -/
theorem final_upload_unconditional_with_final_profile (s : Session)
    (now : Rat) (epoch : Int) (weights : String) (is_best : Bool) (map : Rat)
    (fs : String → Option Bytes) :
    (uploadCheckpoint s now epoch weights is_best map true fs).1 =
      some (uploadModelRequest s epoch weights is_best map true fs) ∧
    (uploadCheckpoint s now epoch weights is_best map true fs).2 = s ∧
    (uploadModelRequest s epoch weights is_best map true fs).url =
      s.api_url ++ "/upload" ∧
    (uploadModelRequest s epoch weights is_best map true fs).method = "post" ∧
    (uploadModelRequest s epoch weights is_best map true fs).epoch = epoch ∧
    (uploadModelRequest s epoch weights is_best map true fs).rtype = "final" ∧
    (uploadModelRequest s epoch weights is_best map true fs).map = some map ∧
    (uploadModelRequest s epoch weights is_best map true fs).fileName = "best.pt" ∧
    (uploadModelRequest s epoch weights is_best map true fs).file = fs weights ∧
    (uploadModelRequest s epoch weights is_best map true fs).retry = some 10 ∧
    (uploadModelRequest s epoch weights is_best map true fs).timeout = some 3600 :=
  ⟨rfl, rfl, rfl, rfl, rfl, rfl, rfl, rfl, rfl, rfl, rfl⟩

/-- C4: the rate-limit gate `allow` (modelled from the spec; its state is
the session's `rate_limits`/`t`, session.py lines 22-23) returns true iff
`lastFiredAt` is unset or `now - lastFiredAt ≥ d`, updates `lastFiredAt` to
`now` exactly when it returns true, the first call on a channel is always
allowed, and two calls at times `t1` and `t1 + δ` starting from an unset
timer yield `(true, δ ≥ d)` — in particular `(true, false)` when `δ < d`
and `(true, true)` when `δ ≥ d`. -/
theorem rate_limiter_allow_spec (now d t1 δ : Rat) (last : Option Rat) :
    ((allow now d last).1 = true ↔
      last = none ∨ ∃ u, last = some u ∧ d ≤ now - u) ∧
    ((allow now d last).2 = if (allow now d last).1 then some now else last) ∧
    (allow t1 d none).1 = true ∧
    (allow (t1 + δ) d (allow t1 d none).2).1 = decide (d ≤ δ) := by
  refine ⟨?_, ?_, rfl, ?_⟩
  · cases last with
    | none => simp [allow]
    | some u =>
        by_cases hc : d ≤ now - u
        · simp [allow, hc]
        · simp [allow, hc]
  · cases last with
    | none => simp [allow]
    | some u =>
        by_cases hc : d ≤ now - u
        · simp [allow, hc]
        · simp [allow, hc]
  · show (allow (t1 + δ) d (some t1)).1 = decide (d ≤ δ)
    by_cases hc : d ≤ δ
    · have : d ≤ t1 + δ - t1 := by rwa [add_sub_cancel_left]
      simp [allow, this, hc]
    · have : ¬ d ≤ t1 + δ - t1 := by rwa [add_sub_cancel_left]
      simp [allow, this, hc]

/-- Witness for C4 at `now = 5`, `d = 3`, `t1 = 0`, `δ = 1`,
`last = some 1`: the call at time 5 with last fire at 1 is allowed
(5 - 1 ≥ 3) and the paired calls at 0 and 0 + 1 yield (true, false) since
1 < 3. -/
theorem rate_limiter_allow_spec_witness :
    ((allow 5 3 (some 1)).1 = true ↔
      (some 1 : Option Rat) = none ∨ ∃ u, (some 1 : Option Rat) = some u ∧ 3 ≤ 5 - u) ∧
    ((allow 5 3 (some 1)).2 = if (allow 5 3 (some 1)).1 then some 5 else some 1) ∧
    (allow 0 3 none).1 = true ∧
    (allow (0 + 1) 3 (allow 0 3 none).2).1 = decide ((3 : Rat) ≤ 1) :=
  rate_limiter_allow_spec 5 3 0 1 (some 1)

/-- C9: when the weights path names no existing file (`fs weights = none`),
`_upload_model` raises no error: the request — final or epoch — is still
issued to `{api_url}/upload`, with the binary file part left as `None`. -/
theorem missing_weights_file_uploads_none (s : Session) (epoch : Int)
    (weights : String) (is_best : Bool) (map : Rat) (final : Bool)
    (fs : String → Option Bytes) (h : fs weights = none) :
    (uploadModelRequest s epoch weights is_best map final fs).file = none ∧
    (uploadModelRequest s epoch weights is_best map final fs).url =
      s.api_url ++ "/upload" ∧
    (uploadModelRequest s epoch weights is_best map final fs).fileName =
      (if final then "best.pt" else "last.pt") := by
  cases final <;> simp [uploadModelRequest, h]

/-- Witness for C9: an empty filesystem, a final upload of `w.pt`. -/
theorem missing_weights_file_uploads_none_witness :
    ((fun _ => none) : String → Option Bytes) "w.pt" = none ∧
    ((uploadModelRequest (mkSessionFields "m" []) 7 "w.pt" false 0 true
        (fun _ => none)).file = none ∧
    (uploadModelRequest (mkSessionFields "m" []) 7 "w.pt" false 0 true
        (fun _ => none)).url = (mkSessionFields "m" []).api_url ++ "/upload" ∧
    (uploadModelRequest (mkSessionFields "m" []) 7 "w.pt" false 0 true
        (fun _ => none)).fileName = (if true then "best.pt" else "last.pt")) :=
  ⟨rfl, missing_weights_file_uploads_none (mkSessionFields "m" []) 7 "w.pt"
    false 0 true (fun _ => none) rfl⟩

/-- C10: `_upload_metrics` never mutates session state: the payload it
sends contains a copy of the metrics queue (with payload type `"metrics"`,
sent to `api_url` with the auth header, diagnostic code 2, default
retry/timeout), and the session it leaves behind — queue and every other
field — is exactly the session it was given. -/
theorem upload_metrics_never_mutates (s : Session) :
    (uploadMetricsCall s).2 = s ∧
    (uploadMetricsCall s).1.metrics = s.metrics_queue ∧
    (uploadMetricsCall s).1.rtype = "metrics" ∧
    (uploadMetricsCall s).1.url = s.api_url ∧
    (uploadMetricsCall s).1.headers = s.auth_header ∧
    (uploadMetricsCall s).1.retry = none ∧
    (uploadMetricsCall s).1.timeout = none ∧
    (uploadMetricsCall s).1.code = 2 :=
  ⟨rfl, rfl, rfl, rfl, rfl, rfl, rfl, rfl⟩

/-- C7: a non-final checkpoint upload fires exactly when the "ckpt"
channel's rate limit allows it (the gate placement is modelled from the
spec, its state is the session's, session.py lines 22-23), and the request
issued is `_upload_model`'s epoch profile: POST to `{api_url}/upload`
carrying the epoch, type `"epoch"`, the `isBest` flag, and the weights
bytes under file part name `last.pt`, with no explicit retry/timeout.
Under the constructed session's defaults (`ckpt = 900.0`), once an epoch
upload has fired at time `now`, a second attempt within `δ < 900` seconds
does not fire — at most once per 900 seconds. -/
theorem epoch_upload_gated_with_epoch_profile (s : Session) (mid : String)
    (hdr : Headers) (now δ : Rat) (epoch e2 : Int) (weights w2 : String)
    (is_best b2 : Bool) (map m2 : Rat) (fs fs2 : String → Option Bytes)
    (hδ : δ < 900) :
    (uploadCheckpoint s now epoch weights is_best map false fs).1 =
      (if (allow now s.rate_limits.ckpt s.t.ckpt).1 then
        some (uploadModelRequest s epoch weights is_best map false fs)
      else none) ∧
    (uploadModelRequest s epoch weights is_best map false fs).url =
      s.api_url ++ "/upload" ∧
    (uploadModelRequest s epoch weights is_best map false fs).method = "post" ∧
    (uploadModelRequest s epoch weights is_best map false fs).epoch = epoch ∧
    (uploadModelRequest s epoch weights is_best map false fs).rtype = "epoch" ∧
    (uploadModelRequest s epoch weights is_best map false fs).isBest = some is_best ∧
    (uploadModelRequest s epoch weights is_best map false fs).map = none ∧
    (uploadModelRequest s epoch weights is_best map false fs).fileName = "last.pt" ∧
    (uploadModelRequest s epoch weights is_best map false fs).file = fs weights ∧
    (uploadModelRequest s epoch weights is_best map false fs).retry = none ∧
    (uploadModelRequest s epoch weights is_best map false fs).timeout = none ∧
    ((uploadCheckpoint (mkSessionFields mid hdr) now epoch weights is_best map
        false fs).1).isSome = true ∧
    (uploadCheckpoint
        (uploadCheckpoint (mkSessionFields mid hdr) now epoch weights is_best map
          false fs).2
        (now + δ) e2 w2 b2 m2 false fs2).1 = none := by
  refine ⟨?_, rfl, rfl, rfl, rfl, rfl, rfl, rfl, rfl, rfl, rfl, ?_, ?_⟩
  · show (if (allow now s.rate_limits.ckpt s.t.ckpt).1 then
        (some (uploadModelRequest s epoch weights is_best map false fs),
         { s with t := { s.t with ckpt := (allow now s.rate_limits.ckpt s.t.ckpt).2 } })
      else (none, s)).1 = _
    by_cases hg : (allow now s.rate_limits.ckpt s.t.ckpt).1
    · simp [hg]
    · simp at hg
      simp [hg]
  · rfl
  · show (uploadCheckpoint
        { mkSessionFields mid hdr with
            t := { metrics := none, ckpt := some now, heartbeat := none } }
        (now + δ) e2 w2 b2 m2 false fs2).1 = none
    have hc : ¬ (900 : Rat) ≤ δ := not_le.mpr hδ
    simp [uploadCheckpoint, mkSessionFields, allow, hc]

/-- Witness for C7 at the default session for model `"m"`, first fire at
time 0, second attempt at 0 + 1 second (1 < 900). -/
theorem epoch_upload_gated_with_epoch_profile_witness :
    (1 : Rat) < 900 ∧
    ((uploadCheckpoint (mkSessionFields "m" []) 0 1 "w.pt" false 0 false
        (fun _ => none)).1 =
      (if (allow 0 (mkSessionFields "m" []).rate_limits.ckpt
            (mkSessionFields "m" []).t.ckpt).1 then
        some (uploadModelRequest (mkSessionFields "m" []) 1 "w.pt" false 0 false
          (fun _ => none))
      else none) ∧
    (uploadModelRequest (mkSessionFields "m" []) 1 "w.pt" false 0 false
        (fun _ => none)).url = (mkSessionFields "m" []).api_url ++ "/upload" ∧
    (uploadModelRequest (mkSessionFields "m" []) 1 "w.pt" false 0 false
        (fun _ => none)).method = "post" ∧
    (uploadModelRequest (mkSessionFields "m" []) 1 "w.pt" false 0 false
        (fun _ => none)).epoch = 1 ∧
    (uploadModelRequest (mkSessionFields "m" []) 1 "w.pt" false 0 false
        (fun _ => none)).rtype = "epoch" ∧
    (uploadModelRequest (mkSessionFields "m" []) 1 "w.pt" false 0 false
        (fun _ => none)).isBest = some false ∧
    (uploadModelRequest (mkSessionFields "m" []) 1 "w.pt" false 0 false
        (fun _ => none)).map = none ∧
    (uploadModelRequest (mkSessionFields "m" []) 1 "w.pt" false 0 false
        (fun _ => none)).fileName = "last.pt" ∧
    (uploadModelRequest (mkSessionFields "m" []) 1 "w.pt" false 0 false
        (fun _ => none)).file = (fun _ => none : String → Option Bytes) "w.pt" ∧
    (uploadModelRequest (mkSessionFields "m" []) 1 "w.pt" false 0 false
        (fun _ => none)).retry = none ∧
    (uploadModelRequest (mkSessionFields "m" []) 1 "w.pt" false 0 false
        (fun _ => none)).timeout = none ∧
    ((uploadCheckpoint (mkSessionFields "m" []) 0 1 "w.pt" false 0 false
        (fun _ => none)).1).isSome = true ∧
    (uploadCheckpoint
        (uploadCheckpoint (mkSessionFields "m" []) 0 1 "w.pt" false 0 false
          (fun _ => none)).2
        (0 + 1) 2 "w.pt" false 0 false (fun _ => none)).1 = none) :=
  ⟨by norm_num,
   epoch_upload_gated_with_epoch_profile (mkSessionFields "m" []) "m" [] 0 1
     1 2 "w.pt" "w.pt" false false 0 0 (fun _ => none) (fun _ => none)
     (by norm_num)⟩

/-! ### Helper lemmas: heartbeat loop runs -/

theorem hbRun_stopped (oracle : Nat → HBOutcome) (mid : String) (al : Bool)
    (ag : Option String) (reqs : List HBRequest) (n : Nat) :
    hbRun oracle ⟨mid, al, ag, .stopped, reqs⟩ n = ⟨mid, al, ag, .stopped, reqs⟩ := by
  induction n with
  | zero => rfl
  | succ m ih => exact ih

theorem hbRun_add (oracle : Nat → HBOutcome) (a : Nat) :
    ∀ (st : HBState) (b : Nat),
      hbRun oracle st (a + b) = hbRun oracle (hbRun oracle st a) b := by
  induction a with
  | zero => intro st b; rw [Nat.zero_add]; rfl
  | succ m ih =>
      intro st b
      have h : m + 1 + b = m + b + 1 := by omega
      rw [h]
      show hbRun oracle (hbStep oracle st) (m + b) = _
      exact ih (hbStep oracle st) b

/-- With an oracle that never supplies an agent id (every attempt either
fails or succeeds with no `data.agentId`), the loop never sets `agent_id`. -/
theorem hbRun_agent_none (g : Nat → Bool) (n : Nat) :
    ∀ st : HBState, st.agent_id = none →
      (hbRun (fun k => if g k then HBOutcome.success none else HBOutcome.failure)
        st n).agent_id = none := by
  induction n with
  | zero => intro st h; exact h
  | succ m ih =>
      intro st h
      apply ih
      obtain ⟨mid, al, ag, loc, reqs⟩ := st
      simp only at h
      cases loc with
      | check => cases al <;> simp [hbStep, h]
      | send =>
          cases hg : g reqs.length <;> simp [hbStep, hg, h]
      | sleep_ => simpa [hbStep] using h
      | stopped => simpa [hbStep] using h

/-- After `n` full ticks with every heartbeat attempt failing, the loop is
back at the top with `n` requests issued and `agent_id` untouched. -/
theorem hbRun_all_failures (mid : String) (n : Nat) :
    ∀ (ag : Option String) (reqs : List HBRequest),
      hbRun (fun _ => HBOutcome.failure) ⟨mid, true, ag, .check, reqs⟩ (3 * n) =
        ⟨mid, true, ag, .check,
          List.replicate n (heartbeatRequest mid ag []) ++ reqs⟩ := by
  induction n with
  | zero => intro ag reqs; rfl
  | succ m ih =>
      intro ag reqs
      have h3 : 3 * (m + 1) = 3 + 3 * m := by ring
      rw [h3, hbRun_add]
      show hbRun (fun _ => HBOutcome.failure)
        ⟨mid, true, ag, .check, heartbeatRequest mid ag [] :: reqs⟩ (3 * m) = _
      rw [ih ag (heartbeatRequest mid ag [] :: reqs)]
      have : List.replicate m (heartbeatRequest mid ag []) ++
          (heartbeatRequest mid ag [] :: reqs) =
          List.replicate (m + 1) (heartbeatRequest mid ag []) ++ reqs := by
        rw [List.replicate_succ']
        simp
      rw [this]

/-- A dead loop observed at the `while` check stops in one step and stays
stopped, its request trace unchanged. -/
theorem hbRun_check_dead (oracle : Nat → HBOutcome) (mid : String)
    (ag : Option String) (reqs : List HBRequest) (m : Nat) :
    hbRun oracle ⟨mid, false, ag, .check, reqs⟩ (m + 1) =
      ⟨mid, false, ag, .stopped, reqs⟩ := by
  show hbRun oracle (hbStep oracle ⟨mid, false, ag, .check, reqs⟩) m = _
  exact hbRun_stopped oracle mid false ag reqs m

/-- A dead loop observed mid-sleep finishes the sleep, fails the check, and
stops — no further request. -/
theorem hbRun_sleep_dead (oracle : Nat → HBOutcome) (mid : String)
    (ag : Option String) (reqs : List HBRequest) (m : Nat) :
    hbRun oracle ⟨mid, false, ag, .sleep_, reqs⟩ (m + 2) =
      ⟨mid, false, ag, .stopped, reqs⟩ := by
  show hbRun oracle (hbStep oracle ⟨mid, false, ag, .sleep_, reqs⟩) (m + 1) = _
  exact hbRun_check_dead oracle mid ag reqs m

/-- A dead loop observed inside the send completes that one in-flight send,
sleeps, fails the check, and stops. -/
theorem hbRun_send_dead (oracle : Nat → HBOutcome) (mid : String)
    (ag : Option String) (reqs : List HBRequest) (m : Nat) :
    hbRun oracle ⟨mid, false, ag, .send, reqs⟩ (m + 3) =
      ⟨mid, false,
       (match oracle reqs.length with
         | .success a => a
         | .failure => ag),
       .stopped, heartbeatRequest mid ag [] :: reqs⟩ := by
  show hbRun oracle (hbStep oracle ⟨mid, false, ag, .send, reqs⟩) (m + 2) = _
  exact hbRun_sleep_dead oracle mid _ _ m

/-- C5: once `alive` is false, cancellation is cooperative and poll-based:
a loop sitting at the `while` check or finishing its sleep performs no
further send for any number of steps and reaches the stopped location (in
one step from the check, two from the sleep); a loop already inside the
send performs exactly that one in-flight send and then stops (three steps);
the stopped location is absorbing. So after the flag flips at most one
in-flight send is observed and the loop terminates. -/
theorem heartbeat_cooperative_cancellation (oracle : Nat → HBOutcome)
    (mid : String) (ag : Option String) (reqs : List HBRequest) (n : Nat) :
    (hbRun oracle ⟨mid, false, ag, .check, reqs⟩ n).reqs.length = reqs.length ∧
    (hbRun oracle ⟨mid, false, ag, .sleep_, reqs⟩ n).reqs.length = reqs.length ∧
    (hbRun oracle ⟨mid, false, ag, .send, reqs⟩ n).reqs.length ≤ reqs.length + 1 ∧
    (hbRun oracle ⟨mid, false, ag, .check, reqs⟩ (n + 1)).loc = .stopped ∧
    (hbRun oracle ⟨mid, false, ag, .sleep_, reqs⟩ (n + 2)).loc = .stopped ∧
    (hbRun oracle ⟨mid, false, ag, .send, reqs⟩ (n + 3)).loc = .stopped ∧
    hbRun oracle ⟨mid, false, ag, .stopped, reqs⟩ n =
      ⟨mid, false, ag, .stopped, reqs⟩ := by
  refine ⟨?_, ?_, ?_, ?_, ?_, ?_, hbRun_stopped oracle mid false ag reqs n⟩
  · cases n with
    | zero => rfl
    | succ m => rw [hbRun_check_dead]
  · cases n with
    | zero => rfl
    | succ m =>
        cases m with
        | zero => rfl
        | succ l => rw [hbRun_sleep_dead]
  · cases n with
    | zero => exact Nat.le_succ _
    | succ m =>
        cases m with
        | zero =>
            show (hbStep oracle ⟨mid, false, ag, .send, reqs⟩).reqs.length ≤
              reqs.length + 1
            simp [hbStep]
        | succ l =>
            cases l with
            | zero =>
                show (hbRun oracle (hbStep oracle ⟨mid, false, ag, .send, reqs⟩) 1).reqs.length ≤
                  reqs.length + 1
                simp [hbStep, hbRun]
            | succ i =>
                rw [hbRun_send_dead]
                simp
  · rw [hbRun_check_dead]
  · rw [hbRun_sleep_dead]
  · rw [hbRun_send_dead]

/-- C6 counterexample: the claim says that once the agent id has been set
by a heartbeat response it is never reset to unset. Run the loop from
session start against responses whose first carries `agentId = "a1"` and
whose second — a successful response whose `data` lacks `agentId` — carries
none: after the first send `agent_id = some "a1"`, and after the second
send line 100 (`self.agent_id = r.json().get('data', {}).get('agentId',
None)`) has reset it to `None`. -/
theorem agent_id_reset_counterexample :
    (hbRun (fun n => if n = 0 then HBOutcome.success (some "a1")
        else HBOutcome.success none) (initHB "m") 2).agent_id = some "a1" ∧
    (hbRun (fun n => if n = 0 then HBOutcome.success (some "a1")
        else HBOutcome.success none) (initHB "m") 5).agent_id = none := by
  constructor <;> rfl

/-- C6 (amended): the agent id starts unset and stays unset until the
first heartbeat response that carries a `data.agentId`; each heartbeat
request carries the model id (in its URL) and the agent id current at send
time (possibly unset); and each successful response *overwrites* the agent
id with its own (possibly absent) `data.agentId` — so the id is not
write-once: a later response lacking the field resets it to unset, as the
counterexample shows. -/
theorem agent_id_follows_latest_response (mid : String) (hdr : Headers)
    (oracle : Nat → HBOutcome) (al : Bool) (ag : Option String)
    (reqs : List HBRequest) (g : Nat → Bool) (n : Nat) :
    (mkSessionFields mid hdr).agent_id = none ∧
    (initHB mid).agent_id = none ∧
    hbStep oracle ⟨mid, al, ag, .send, reqs⟩ =
      ⟨mid, al,
       (match oracle reqs.length with
         | .success a => a
         | .failure => ag),
       .sleep_, heartbeatRequest mid ag [] :: reqs⟩ ∧
    (heartbeatRequest mid ag hdr).url =
      HUB_API_ROOT ++ "/v1/agent/heartbeat/models/" ++ mid ∧
    (heartbeatRequest mid ag hdr).agentId = ag ∧
    (heartbeatRequest mid ag hdr).agent = AGENT_NAME ∧
    (hbRun (fun k => if g k then HBOutcome.success none else HBOutcome.failure)
      (initHB mid) n).agent_id = none :=
  ⟨rfl, rfl, rfl, rfl, rfl, rfl, hbRun_agent_none g n (initHB mid) rfl⟩

/-- C8: a failed heartbeat send never terminates the loop and never
surfaces to the trainer: the send step always proceeds to the sleep —
whatever the attempt's outcome, in particular on failure — and leaves the
alive flag alone; the HTTP attempt itself carries retry budget 0
(session.py line 97); and under an oracle where every attempt fails the
loop still issues exactly one request per tick, forever — the next tick is
the only retry mechanism. -/
theorem heartbeat_failure_never_stops_loop (oracle : Nat → HBOutcome)
    (mid : String) (hdr : Headers) (al : Bool) (ag : Option String)
    (reqs : List HBRequest) (n : Nat) :
    (hbStep oracle ⟨mid, al, ag, .send, reqs⟩).loc = .sleep_ ∧
    (hbStep oracle ⟨mid, al, ag, .send, reqs⟩).alive = al ∧
    (hbStep oracle ⟨mid, al, ag, .send, reqs⟩).reqs.length = reqs.length + 1 ∧
    (heartbeatRequest mid ag hdr).retry = some 0 ∧
    (hbRun (fun _ => HBOutcome.failure) (initHB mid) (3 * n)).reqs.length = n ∧
    (hbRun (fun _ => HBOutcome.failure) (initHB mid) (3 * n)).alive = true := by
  refine ⟨rfl, rfl, by simp [hbStep], rfl, ?_, ?_⟩
  · show (hbRun (fun _ => HBOutcome.failure) ⟨mid, true, none, .check, []⟩
        (3 * n)).reqs.length = n
    rw [hbRun_all_failures mid n none []]
    simp
  · show (hbRun (fun _ => HBOutcome.failure) ⟨mid, true, none, .check, []⟩
        (3 * n)).alive = true
    rw [hbRun_all_failures mid n none []]

end HubSession
